import Mathlib

/-!
Verification of the Fink/Rubin science-portal query-dispatch pipeline.

The definitions below are a shallow embedding of the Python sources:
`apps/api.py` (REST wrapper `request_api`), `apps/utils.py`
(`isoify_time`, `markdownify_objectid`), and `apps/search_results.py`
(the `results` callback, its search-history update, and the
`update_table` deduplication).  External library calls (the `requests`
HTTP layer, `pandas` table operations, Python `float`/`int` conversion,
astropy `Time`) are modelled either as explicit function parameters
("oracles" standing for the library) or as small executable models of
the documented library behaviour, as noted on each definition.
-/

/-- A value stored in one cell of a result table or of a JSON payload:
a string, a number (Python ints and floats, modelled as rationals), or
Python `None`. -/
inductive Cell where
  | s (v : String)
  | n (v : Rat)
  | null
deriving DecidableEq, Repr

/-- A row of a result table: a finite mapping from column names to
cells, modelled as an association list (first binding wins, as in a
Python dict with unique keys). -/
abbrev Row : Type := List (String × Cell)

/-- A JSON payload sent to the REST API: association list from keys to
cells. -/
abbrev Payload : Type := List (String × Cell)

/-- First binding of a key in an association list of cells (Python
`dict` access). -/
def lookupCell (r : List (String × Cell)) (k : String) : Option Cell :=
  match r with
  | [] => none
  | (k2, v) :: rest => if k2 = k then some v else lookupCell rest k

/-- First binding of a key in a string-valued parameter mapping
(the `query["params"]` dict). -/
def lookupParam (ps : List (String × String)) (k : String) : Option String :=
  match ps with
  | [] => none
  | (k2, v) :: rest => if k2 = k then some v else lookupParam rest k

/-- Numeric value of a column of a row, with 0 for a missing or
non-numeric cell (used to model pandas operations on numeric columns;
all claims about them concern numeric columns). -/
def getRat (r : Row) (k : String) : Rat :=
  match lookupCell r k with
  | some (Cell.n v) => v
  | _ => 0

/-! ## apps/api.py — `request_api` -/

/-- An HTTP response as seen through the `requests` library: a status
code and a byte body. -/
structure HttpResponse where
  status_code : Nat
  content : List Nat
deriving DecidableEq, Repr

/-- The value returned by `request_api`, tagged by the requested output
format: decoded JSON (`r.json()`), a byte buffer (`io.BytesIO`), or a
decoded table (`pd.read_json`). -/
inductive ApiReturn where
  | jsonOut (rows : List Row)
  | rawOut (bytes : List Nat)
  | tableOut (rows : List Row)
deriving DecidableEq

/-- The exception raised by `request_api` when the local variable `r`
is read without having been assigned (Python `UnboundLocalError`,
reached when `method` is neither `"POST"` nor `"GET"`). -/
inductive ApiError where
  | unboundLocal
deriving DecidableEq, Repr

/-- The HTTP request issued by `request_api`, if any: `requests.post`
for `"POST"`, `requests.get` for `"GET"`, and no request at all for any
other method string. -/
def issued_request (endpoint : String) (json : Option Payload) (method : String) :
    Option (String × String × Option Payload) :=
  if method = "POST" then some ("POST", endpoint, json)
  else if method = "GET" then some ("GET", endpoint, json)
  else none

/-- Embedding of `request_api` from `apps/api.py`.  The network layer
and the two body decoders (`r.json()` and `pd.read_json`) are external
libraries, passed as parameters `http`, `decodeJson`, `readJson`.
On HTTP status other than 200 the function returns the typed empty
value of the requested output format; when no request was issued
(method neither POST nor GET) reading `r.status_code` raises. -/
def request_api (http : String → String → Option Payload → HttpResponse)
    (decodeJson : List Nat → List Row) (readJson : List Nat → List Row)
    (endpoint : String) (json : Option Payload) (output : String) (method : String) :
    Except ApiError ApiReturn :=
  match issued_request endpoint json method with
  | none => Except.error ApiError.unboundLocal
  | some (m, ep, js) =>
    let r := http m ep js
    if output = "json" then
      if r.status_code ≠ 200 then Except.ok (ApiReturn.jsonOut [])
      else Except.ok (ApiReturn.jsonOut (decodeJson r.content))
    else if output = "raw" then
      if r.status_code ≠ 200 then Except.ok (ApiReturn.rawOut [])
      else Except.ok (ApiReturn.rawOut r.content)
    else
      if r.status_code ≠ 200 then Except.ok (ApiReturn.tableOut [])
      else Except.ok (ApiReturn.tableOut (readJson r.content))

/-- The typed empty value `request_api` documents for each output
format: empty list for `"json"`, empty byte buffer for `"raw"`, empty
DataFrame for anything else (the `"pandas"` default). -/
def emptyReturn (output : String) : ApiReturn :=
  if output = "json" then ApiReturn.jsonOut []
  else if output = "raw" then ApiReturn.rawOut []
  else ApiReturn.tableOut []

/-- A concrete HTTP layer answering every request with status 500 and
an empty body. -/
def httpAlways500 : String → String → Option Payload → HttpResponse :=
  fun _ _ _ => { status_code := 500, content := [] }

/-- A concrete trivial JSON/table decoder for witnesses. -/
def decodeNothing : List Nat → List Row := fun _ => []

/-! ## apps/utils.py — `markdownify_objectid` and `isoify_time` -/

/-- Embedding of `markdownify_objectid` from `apps/utils.py`:
renders an object id as a markdown hyperlink. -/
def markdownify_objectid (diaObjectid : String) : String :=
  "[" ++ diaObjectid ++ "](/" ++ diaObjectid ++ ")"

/-- The time interpretation chosen by `isoify_time` before conversion
to ISO: a string accepted by the astropy `Time` constructor, a Julian
Date, or a Modified Julian Date. -/
inductive TimeInterp where
  | parsed (s : String)
  | jd (v : Rat)
  | mjd (v : Rat)
deriving DecidableEq, Repr

/-- The branch structure of `isoify_time` from `apps/utils.py`.
`tryTime` models whether the astropy `Time(t)` constructor succeeds on
the raw string (it raises `ValueError` on bare numbers), and `pyFloat`
models Python `float()` on the string.  On constructor failure the code
tests the truthiness of the float floor-division `ft // 2400000` to
pick Julian versus Modified Julian Date. -/
def isoify_interp (tryTime : String → Bool) (pyFloat : String → Rat)
    (t : String) : TimeInterp :=
  if tryTime t then TimeInterp.parsed t
  else
    let ft := pyFloat t
    if ⌊ft / 2400000⌋ ≠ 0 then TimeInterp.jd ft else TimeInterp.mjd ft

/-- Embedding of `isoify_time`: the chosen time is rendered in ISO form
by the astropy `.iso` property, modelled by the oracle `iso`. -/
def isoify_time (tryTime : String → Bool) (pyFloat : String → Rat)
    (iso : TimeInterp → String) (t : String) : String :=
  iso (isoify_interp tryTime pyFloat t)

/-! ## Search history update (`apps/search_results.py`, `results`) -/

/-- Python `list.remove(x)`: drop the first occurrence of `x`. -/
def removeFirst (x : String) : List String → List String
  | [] => []
  | y :: ys => if y = x then ys else y :: removeFirst x ys

/-- Fuel-indexed model of the loop `while value in history:
history.remove(value)`; the fuel is instantiated with the list length,
which bounds the number of removals. -/
def removeAllGo (x : String) : Nat → List String → List String
  | 0, h => h
  | fuel + 1, h => if x ∈ h then removeAllGo x fuel (removeFirst x h) else h

/-- All exact-string occurrences of `x` removed from `h`, as performed
by the while/remove loop. -/
def removeAll (x : String) (h : List String) : List String :=
  removeAllGo x h.length h

/-- Embedding of the history update in the `results` callback
(`apps/search_results.py`): reset a falsy store value to `[]`, remove
all prior occurrences of the query string, append it, keep the last 10
entries (`history[-10:]`). -/
def record (history : Option (List String)) (value : String) : List String :=
  let h := match history with
    | none => []
    | some l => l
  let h2 := removeAll value h
  let h3 := h2 ++ [value]
  h3.drop (h3.length - 10)

/-- Fifteen distinct query strings, for the history-cap scenario. -/
def demo15 : List String :=
  ["q01", "q02", "q03", "q04", "q05", "q06", "q07", "q08", "q09", "q10",
   "q11", "q12", "q13", "q14", "q15"]

/-- Recording a list of queries in order into an initially empty
history. -/
def recordAll (qs : List String) : List String :=
  qs.foldl (fun acc s => record (some acc) s) []

/-! ## pandas models (external library) -/

/-- Model of `pandas.DataFrame.sort_values(key, ascending)` on a
numeric column: a correct (stable) sort by the numeric value of the
column. -/
def sort_values (key : String) (ascending : Bool) (rows : List Row) : List Row :=
  if ascending then
    List.insertionSort (fun a b => getRat a key ≤ getRat b key) rows
  else
    List.insertionSort (fun a b => getRat b key ≤ getRat a key) rows

/-- Recursion core of `drop_duplicates(subset=key, keep="first")`:
keep a row when its key cell was not seen before. -/
def dedupGo (key : String) (seen : List (Option Cell)) : List Row → List Row
  | [] => []
  | r :: rs =>
    let k := lookupCell r key
    if k ∈ seen then dedupGo key seen rs
    else r :: dedupGo key (k :: seen) rs

/-- Model of `pandas.DataFrame.drop_duplicates(subset=key,
keep="first")`: keep the first-seen row for every value of the key
column, preserving row order. -/
def drop_duplicates_first (key : String) (rows : List Row) : List Row :=
  dedupGo key [] rows

/-- The "unique objects" branch of `update_table` in
`apps/search_results.py`: deduplicate the displayed table on
`r:diaObjectId`, keeping the first (latest) row of each object. -/
def update_table_unique_objects (data : List Row) : List Row :=
  drop_duplicates_first "r:diaObjectId" data

/-- Model of the idiom
`pdf.loc[pdf.groupby(g)[t].idxmax()]` used for the object and SSO
searches: one row per distinct value of column `g`, namely the first
row attaining the maximum of column `t` in that group.  (pandas emits
groups in sorted key order; no claim depends on the group order, which
is modelled as first appearance.) -/
def idxmax_per_group (g t : String) (rows : List Row) : List Row :=
  (drop_duplicates_first g rows).map (fun rep =>
    let grp := rows.filter (fun r => lookupCell r g = lookupCell rep g)
    let m := (grp.map (fun r => getRat r t)).foldl max 0
    match grp.find? (fun r => getRat r t = m) with
    | some r => r
    | none => rep)

/-! ## apps/search_results.py — the `results` callback -/

/-- A parsed query as produced by `parse_query` or by the URL
parameters: an action tag, a residual object token, and the option
mapping.  (The parser itself, `apps/parse.py`, is outside the verified
sources; the callback is verified for every possible parsed query.) -/
structure Query where
  action : String
  object : String
  params : List (String × String)

/-- The user-visible outcome of the `results` callback, reduced to the
branch that produced it. -/
inductive Alert where
  | emptyQuery
  | trendWarning
  | lastWarning
  | notRecognized
  | unhandled
  | raised
  | noResults
  | shown
deriving DecidableEq, Repr

/-- The fourth output of the callback, feeding the
`search_history_store`: either Dash `no_update` (store untouched) or a
value written back to the store. -/
inductive HistOut where
  | noUpdate
  | store (v : Option (List String))
deriving DecidableEq

/-- Outcome of the per-action dispatch section: a Python exception
raised before any request (missing required parameter), or a REST call
with its endpoint, payload, main identifier column and response
table. -/
inductive Dispatched where
  | raise
  | call (endpoint : String) (payload : Payload) (main_id : String) (pdf : List Row)

/-- Observable result of one invocation of the `results` callback:
which alert/branch was taken, the REST calls issued in order, the
history-store output, the table held in `pdf` after the identifier
column is markdownified, and the sorted data when results are shown. -/
structure ResultsOut where
  alert : Alert
  calls : List (String × Payload)
  histOut : HistOut
  table : List Row
  sortedData : Option (List Row)

/-- Map `markdownify_objectid` over the main identifier column
(`pdf[main_id] = pdf[main_id].apply(markdownify_objectid)`); string
cells are transformed, other cells kept (ids are strings in the tables
this callback receives). -/
def markdownify_col (main_id : String) (rows : List Row) : List Row :=
  rows.map (fun r => r.map (fun kv =>
    if kv.1 = main_id then
      match kv.2 with
      | Cell.s v => (kv.1, Cell.s (markdownify_objectid v))
      | c => (kv.1, c)
    else kv))

/-- Optional `startdate`-style payload entry built from a time
parameter via `isoify_time` (whose oracle composition is abbreviated to
`isoify` here). -/
def timeEntry (isoify : String → String) (ps : List (String × String))
    (param payloadKey : String) : Payload :=
  match lookupParam ps param with
  | some v => [(payloadKey, Cell.s (isoify v))]
  | none => []

/-- The conesearch payload: floated coordinates, radius defaulting to
10 arcsec and clamped by `min` to 18000 arcsec, optional start date,
and stop date or else window. -/
def conesearchPayload (pyFloat : String → Rat) (isoify : String → String)
    (ps : List (String × String)) (ras decs : String) : Payload :=
  let sr : Rat :=
    min (match lookupParam ps "r" with
      | some s => pyFloat s
      | none => 10) 18000
  [("ra", Cell.n (pyFloat ras)), ("dec", Cell.n (pyFloat decs)),
   ("radius", Cell.n sr)]
  ++ timeEntry isoify ps "after" "startdate"
  ++ (match lookupParam ps "before" with
    | some b => [("stopdate", Cell.s (isoify b))]
    | none =>
      match lookupParam ps "window" with
      | some w => [("window", Cell.s w)]
      | none => [])

/-- The class-search payload: the class name (Python `None` when the
parameter is missing), `n` from `last` defaulting to 100, optional
start/stop dates and trend. -/
def classPayload (pyInt : String → Int) (isoify : String → String)
    (ps : List (String × String)) : Payload :=
  let alert_class := match lookupParam ps "class" with
    | some c => Cell.s c
    | none => Cell.null
  let n_last : Int := match lookupParam ps "last" with
    | some s => pyInt s
    | none => 100
  [("class", alert_class), ("n", Cell.n (n_last : Rat))]
  ++ timeEntry isoify ps "after" "startdate"
  ++ timeEntry isoify ps "before" "stopdate"
  ++ (match lookupParam ps "trend" with
    | some t => [("trend", Cell.s t)]
    | none => [])

/-- The anomaly payload: `n` from `last` defaulting to 100 and optional
start/stop dates. -/
def anomalyPayload (pyInt : String → Int) (isoify : String → String)
    (ps : List (String × String)) : Payload :=
  let n_last : Int := match lookupParam ps "last" with
    | some s => pyInt s
    | none => 100
  [("n", Cell.n (n_last : Rat))]
  ++ timeEntry isoify ps "after" "start_date"
  ++ timeEntry isoify ps "before" "stop_date"

/-- The per-action dispatch section of the `results` callback (lines
614-769 of `apps/search_results.py`): builds the endpoint and payload
for the query action, issues the REST call through the oracle `api`
(standing for `request_api` in pandas mode), and applies the
per-action post-processing.  `pyFloat` and `pyInt` model the Python
`float()` and `int()` conversions. -/
def dispatchCall (api : String → Payload → List Row)
    (pyFloat : String → Rat) (pyInt : String → Int)
    (isoify : String → String) (query : Query) : Option Dispatched :=
  if query.action = "diaObjectid" then
    let payload : Payload := [("diaObjectId", Cell.s query.object)]
    let pdf0 := api "/api/v1/sources" payload
    let pdf := if pdf0.isEmpty then pdf0
      else idxmax_per_group "r:diaObjectId" "r:midpointMjdTai" pdf0
    some (Dispatched.call "/api/v1/sources" payload "r:diaObjectId" pdf)
  else if query.action = "sso" then
    match lookupParam query.params "sso" with
    | none => some Dispatched.raise
    | some ssoname =>
      let payload : Payload := [("n_or_d", Cell.s ssoname)]
      let pdf0 := api "/api/v1/sso" payload
      let pdf := if pdf0.isEmpty then pdf0
        else idxmax_per_group "r:ssObjectId" "r:midpointMjdTai" pdf0
      some (Dispatched.call "/api/v1/sso" payload "r:ssObjectId" pdf)
  else if query.action = "tracklet" then
    let payload : Payload := [("id", Cell.s query.object)]
    some (Dispatched.call "/api/v1/tracklet" payload "r:diaObjectId"
      (api "/api/v1/tracklet" payload))
  else if query.action = "conesearch" then
    match lookupParam query.params "ra", lookupParam query.params "dec" with
    | some ras, some decs =>
      let payload := conesearchPayload pyFloat isoify query.params ras decs
      some (Dispatched.call "/api/v1/conesearch" payload "r:diaObjectId"
        (api "/api/v1/conesearch" payload))
    | _, _ => some Dispatched.raise
  else if query.action = "class" then
    let payload := classPayload pyInt isoify query.params
    some (Dispatched.call "/api/v1/latests" payload "r:diaObjectId"
      (api "/api/v1/latests" payload))
  else if query.action = "anomaly" then
    let payload := anomalyPayload pyInt isoify query.params
    some (Dispatched.call "/api/v1/anomaly" payload "r:diaObjectId"
      (api "/api/v1/anomaly" payload))
  else
    none

/-- An early return of the callback: no REST call, no table. -/
def earlyOut (a : Alert) (h : HistOut) : ResultsOut :=
  { alert := a, calls := [], histOut := h, table := [], sortedData := none }

/-- The tail of the callback after a dispatched REST call (lines
771-859): record the query string into the history, then either report
no results or markdownify the identifier column, sort (ascending by
separation for conesearch, descending by observation time otherwise)
and display; displaying the table issues one further REST call for the
column schema. -/
def finishDispatch (show_table : Bool) (action value : String)
    (history : Option (List String)) (endpoint : String) (payload : Payload)
    (main_id : String) (pdf : List Row) : ResultsOut :=
  if pdf.isEmpty then
    { alert := Alert.noResults, calls := [(endpoint, payload)],
      histOut := HistOut.store (some (record history value)), table := [],
      sortedData := none }
  else
    { alert := Alert.shown,
      calls := (endpoint, payload) ::
        (if show_table then [("/api/v1/schema", [("endpoint", Cell.s endpoint)])]
         else []),
      histOut := HistOut.store (some (record history value)),
      table := markdownify_col main_id pdf,
      sortedData := some (if action = "conesearch" then
          sort_values "v:separation_degree" true (markdownify_col main_id pdf)
        else sort_values "r:midpointMjdTai" false (markdownify_col main_id pdf)) }

/-- Embedding of the `results` callback of `apps/search_results.py`
from the point where the query has been parsed (line 581 onward): the
falsy-action early return, the trend/last validation warnings, the
unknown-query message, the per-action dispatch and the common result
handling. -/
def results (api : String → Payload → List Row)
    (pyFloat : String → Rat) (pyInt : String → Int) (isoify : String → String)
    (query : Query) (value : String) (history : Option (List String))
    (show_table : Bool) : ResultsOut :=
  if query.action = "" then earlyOut Alert.emptyQuery HistOut.noUpdate
  else if query.action ≠ "class" ∧ (lookupParam query.params "trend").isSome then
    earlyOut Alert.trendWarning (HistOut.store history)
  else if (lookupParam query.params "last").isSome ∧ query.action = "unknown" then
    earlyOut Alert.lastWarning (HistOut.store history)
  else if query.action = "unknown" then
    earlyOut Alert.notRecognized HistOut.noUpdate
  else
    match dispatchCall api pyFloat pyInt isoify query with
    | none => earlyOut Alert.unhandled HistOut.noUpdate
    | some Dispatched.raise => earlyOut Alert.raised HistOut.noUpdate
    | some (Dispatched.call endpoint payload main_id pdf) =>
      finishDispatch show_table query.action value history endpoint payload
        main_id pdf

/-! ## Concrete oracles for witnesses and counterexamples -/

/-- A REST layer answering every call with an empty table. -/
def apiEmpty : String → Payload → List Row := fun _ _ => []

/-- Two concrete conesearch result rows, out of order in separation and
in observation time. -/
def rowA : Row :=
  [("r:diaObjectId", Cell.s "111"), ("v:separation_degree", Cell.n (3 : Rat)),
   ("r:midpointMjdTai", Cell.n (60100 : Rat))]

/-- Second concrete result row. -/
def rowB : Row :=
  [("r:diaObjectId", Cell.s "222"), ("v:separation_degree", Cell.n (1 : Rat)),
   ("r:midpointMjdTai", Cell.n (60200 : Rat))]

/-- A REST layer answering every call with the two demo rows. -/
def apiDemo : String → Payload → List Row := fun _ _ => [rowA, rowB]

/-- Concrete model of Python `float()` on the strings used in
witnesses. -/
def floatDemo : String → Rat := fun s =>
  if s = "10" then 10 else if s = "20" then 20
  else if s = "100000" then 100000 else 0

/-- Concrete model of Python `int()` on the strings used in
witnesses. -/
def intDemo : String → Int := fun s =>
  if s = "10" then 10 else if s = "5" then 5 else 0

/-- Concrete ISO-conversion oracle (identity is enough for the
claims). -/
def isoDemo : String → String := fun s => s

/-- A third concrete row sharing its `r:diaObjectId` with `rowA`, for
the deduplication witness. -/
def rowC : Row :=
  [("r:diaObjectId", Cell.s "111"), ("v:separation_degree", Cell.n (9 : Rat)),
   ("r:midpointMjdTai", Cell.n (60050 : Rat))]

/-- Concrete model of the astropy `Time` constructor outcome: it
accepts the ISO string used in the witness and raises on everything
else. -/
def tryTimeDemo : String → Bool := fun s => s == "2023-11-07"

/-- Concrete model of Python `float()` for the time witness. -/
def floatTimeDemo : String → Rat := fun s =>
  if s = "60000" then 60000 else if s = "2460000" then 2460000 else 0

/-- Concrete model of the astropy `.iso` rendering. -/
def isoOracleDemo : TimeInterp → String := fun _ => "2023-11-07 00:00:00.000"

/-- The sorted display table of the concrete conesearch witness run. -/
def sortedDemo : List Row :=
  sort_values "v:separation_degree" true (markdownify_col "r:diaObjectId" [rowA, rowB])

/-- C1: for every endpoint, payload and output format, a non-200
response makes `request_api` return the typed empty value for that
format, without raising, provided the method is POST or GET. -/
theorem request_api_failsoft_non200
    (http : String → String → Option Payload → HttpResponse)
    (decodeJson readJson : List Nat → List Row)
    (endpoint : String) (json : Option Payload) (output method : String)
    (hm : method = "POST" ∨ method = "GET")
    (hs : (http method endpoint json).status_code ≠ 200) :
    request_api http decodeJson readJson endpoint json output method =
      Except.ok (emptyReturn output) := by
  have hreq : issued_request endpoint json method = some (method, endpoint, json) := by
    rcases hm with h | h <;> subst h <;> simp [issued_request]
  unfold request_api
  rw [hreq]
  simp only [emptyReturn]
  split
  · simp [hs]
  · split
    · simp [hs]
    · simp [hs]

/-- Witness for C1 at a concrete input: a simulated HTTP 500 yields an
empty table in pandas mode, an empty buffer in raw mode, and an empty
list in json mode. -/
theorem request_api_failsoft_non200_witness :
    request_api httpAlways500 decodeNothing decodeNothing "/api/v1/conesearch"
        none "pandas" "POST" = Except.ok (ApiReturn.tableOut []) ∧
    request_api httpAlways500 decodeNothing decodeNothing "/api/v1/conesearch"
        none "raw" "POST" = Except.ok (ApiReturn.rawOut []) ∧
    request_api httpAlways500 decodeNothing decodeNothing "/api/v1/conesearch"
        none "json" "GET" = Except.ok (ApiReturn.jsonOut []) := by
  refine ⟨?_, ?_, ?_⟩
  · exact request_api_failsoft_non200 httpAlways500 decodeNothing decodeNothing
      "/api/v1/conesearch" none "pandas" "POST" (Or.inl rfl) (by decide)
  · exact request_api_failsoft_non200 httpAlways500 decodeNothing decodeNothing
      "/api/v1/conesearch" none "raw" "POST" (Or.inl rfl) (by decide)
  · exact request_api_failsoft_non200 httpAlways500 decodeNothing decodeNothing
      "/api/v1/conesearch" none "json" "GET" (Or.inr rfl) (by decide)

/-- C10: for any method other than POST or GET, `request_api` issues no
HTTP request and raises instead of returning a documented result. -/
theorem request_api_bad_method
    (http : String → String → Option Payload → HttpResponse)
    (decodeJson readJson : List Nat → List Row)
    (endpoint : String) (json : Option Payload) (output method : String)
    (h1 : method ≠ "POST") (h2 : method ≠ "GET") :
    issued_request endpoint json method = none ∧
    request_api http decodeJson readJson endpoint json output method =
      Except.error ApiError.unboundLocal := by
  have hreq : issued_request endpoint json method = none := by
    simp [issued_request, h1, h2]
  exact ⟨hreq, by unfold request_api; rw [hreq]⟩

/-- Witness for C10 at the concrete method `"PUT"`. -/
theorem request_api_bad_method_witness :
    issued_request "/api/v1/sources" none "PUT" = none ∧
    request_api httpAlways500 decodeNothing decodeNothing "/api/v1/sources"
        none "pandas" "PUT" = Except.error ApiError.unboundLocal :=
  request_api_bad_method httpAlways500 decodeNothing decodeNothing
    "/api/v1/sources" none "pandas" "PUT" (by decide) (by decide)

/-- Removing the first occurrence of a present element shortens the
list by exactly one. -/
theorem removeFirst_length_of_mem (x : String) (h : List String) (hm : x ∈ h) :
    (removeFirst x h).length + 1 = h.length := by
  induction h with
  | nil => cases hm
  | cons y ys ih =>
    by_cases hyx : y = x
    · simp [removeFirst, hyx]
    · have hx : x ∈ ys := by
        rcases List.mem_cons.mp hm with h1 | h1
        · exact absurd h1.symm hyx
        · exact h1
      simp [removeFirst, hyx, ih hx]

/-- The while/remove loop removes every occurrence, given enough
fuel. -/
theorem removeAllGo_not_mem (x : String) :
    ∀ (fuel : Nat) (h : List String), h.length ≤ fuel → x ∉ removeAllGo x fuel h := by
  intro fuel
  induction fuel with
  | zero =>
    intro h hl
    have : h = [] := List.length_eq_zero.mp (Nat.le_zero.mp hl)
    subst this
    simp [removeAllGo]
  | succ n ih =>
    intro h hl
    by_cases hm : x ∈ h
    · rw [removeAllGo]
      simp only [hm, if_true]
      apply ih
      have := removeFirst_length_of_mem x h hm
      omega
    · rw [removeAllGo]
      simp [hm]

/-- After the history loop, the query string no longer occurs. -/
theorem removeAll_not_mem (x : String) (h : List String) : x ∉ removeAll x h :=
  removeAllGo_not_mem x h.length h le_rfl

/-- The history after `record` is a truncated x-free prefix followed by
the single appended occurrence of `x`. -/
theorem record_shape (history : Option (List String)) (x : String) :
    ∃ f : List String, x ∉ f ∧
      record history x = f.drop (f.length + 1 - 10) ++ [x] := by
  classical
  set h0 : List String := (match history with | none => [] | some l => l) with hh0
  refine ⟨removeAll x h0, removeAll_not_mem x h0, ?_⟩
  show (removeAll x h0 ++ [x]).drop ((removeAll x h0 ++ [x]).length - 10) = _
  set f : List String := removeAll x h0 with hf
  have hlen : (f ++ [x]).length = f.length + 1 := by simp
  rw [hlen, List.drop_append_eq_append_drop]
  have hle : f.length + 1 - 10 - f.length = 0 := by omega
  rw [hle]
  simp

/-- C2: after a dispatched query is recorded, the query string occurs
exactly once in the history, as its last element, and the history
holds at most 10 entries; recording 15 distinct strings leaves exactly
the 10 most recent. -/
theorem search_history_record_spec (history : Option (List String)) (x : String) :
    (record history x).count x = 1 ∧
    (record history x).getLast? = some x ∧
    (record history x).length ≤ 10 ∧
    recordAll demo15 = demo15.drop 5 := by
  obtain ⟨f, hnf, heq⟩ := record_shape history x
  have hdropnf : x ∉ f.drop (f.length + 1 - 10) := fun hx =>
    hnf ((List.drop_sublist _ _).mem hx)
  refine ⟨?_, ?_, ?_, by decide⟩
  · rw [heq, List.count_append]
    rw [List.count_eq_zero.mpr hdropnf]
    simp
  · rw [heq]
    exact List.getLast?_concat _
  · rw [heq]
    simp only [List.length_append, List.length_drop, List.length_singleton]
    omega

/-- Deduplication keeps a subsequence of the input rows. -/
theorem dedupGo_sublist (key : String) :
    ∀ (rows : List Row) (seen : List (Option Cell)),
      (dedupGo key seen rows).Sublist rows := by
  intro rows
  induction rows with
  | nil => intro seen; simp [dedupGo]
  | cons r rs ih =>
    intro seen
    rw [dedupGo]
    by_cases hk : lookupCell r key ∈ seen
    · simp only [hk, if_true]
      exact (ih seen).cons r
    · simp only [hk, if_false]
      exact (ih _).cons₂ r

/-- Every kept row has a key that was not among the already-seen
keys. -/
theorem dedupGo_key_not_seen (key : String) :
    ∀ (rows : List Row) (seen : List (Option Cell)) (r2 : Row),
      r2 ∈ dedupGo key seen rows → lookupCell r2 key ∉ seen := by
  intro rows
  induction rows with
  | nil => intro seen r2 h; simp [dedupGo] at h
  | cons r rs ih =>
    intro seen r2 h2
    rw [dedupGo] at h2
    by_cases hk : lookupCell r key ∈ seen
    · simp only [hk, if_true] at h2
      exact ih seen r2 h2
    · simp only [hk, if_false] at h2
      rcases List.mem_cons.mp h2 with h3 | h3
      · subst h3; exact hk
      · have := ih _ r2 h3
        intro hc
        exact this (List.mem_cons_of_mem _ hc)

/-- Kept rows have pairwise distinct key cells. -/
theorem dedupGo_keys_nodup (key : String) :
    ∀ (rows : List Row) (seen : List (Option Cell)),
      ((dedupGo key seen rows).map (fun r => lookupCell r key)).Nodup := by
  intro rows
  induction rows with
  | nil => intro seen; simp [dedupGo]
  | cons r rs ih =>
    intro seen
    rw [dedupGo]
    by_cases hk : lookupCell r key ∈ seen
    · simp only [hk, if_true]
      exact ih seen
    · simp only [hk, if_false, List.map_cons, List.nodup_cons]
      refine ⟨?_, ih _⟩
      intro hmem
      rcases List.mem_map.mp hmem with ⟨q, hq, hqk⟩
      have := dedupGo_key_not_seen key rs _ q hq
      exact this (hqk ▸ List.mem_cons_self _ _)

/-- Every input row's key is represented among the kept rows. -/
theorem dedupGo_covers (key : String) :
    ∀ (rows : List Row) (seen : List (Option Cell)) (r2 : Row),
      r2 ∈ rows → lookupCell r2 key ∉ seen →
      ∃ q ∈ dedupGo key seen rows, lookupCell q key = lookupCell r2 key := by
  intro rows
  induction rows with
  | nil => intro seen r2 h; cases h
  | cons r rs ih =>
    intro seen r2 h2 hns
    rw [dedupGo]
    by_cases hk : lookupCell r key ∈ seen
    · simp only [hk, if_true]
      rcases List.mem_cons.mp h2 with h3 | h3
      · subst h3; exact absurd hk hns
      · exact ih seen r2 h3 hns
    · simp only [hk, if_false]
      rcases List.mem_cons.mp h2 with h3 | h3
      · exact ⟨r, List.mem_cons_self _ _, by rw [h3]⟩
      · by_cases heq : lookupCell r2 key = lookupCell r key
        · exact ⟨r, List.mem_cons_self _ _, heq.symm⟩
        · have hns2 : lookupCell r2 key ∉ lookupCell r key :: seen := by
            intro hc
            rcases List.mem_cons.mp hc with h4 | h4
            · exact heq h4
            · exact hns h4
          obtain ⟨q, hq, hqe⟩ := ih _ r2 h3 hns2
          exact ⟨q, List.mem_cons_of_mem _ hq, hqe⟩

/-- Every kept row is the first row of the input carrying its key. -/
theorem dedupGo_find (key : String) :
    ∀ (rows : List Row) (seen : List (Option Cell)) (r2 : Row),
      r2 ∈ dedupGo key seen rows →
      rows.find? (fun r => lookupCell r key == lookupCell r2 key) = some r2 := by
  intro rows
  induction rows with
  | nil => intro seen r2 h; simp [dedupGo] at h
  | cons r rs ih =>
    intro seen r2 h2
    rw [dedupGo] at h2
    by_cases hk : lookupCell r key ∈ seen
    · simp only [hk, if_true] at h2
      have hr2 := dedupGo_key_not_seen key rs seen r2 h2
      have hne : lookupCell r key ≠ lookupCell r2 key := by
        intro hc; exact hr2 (hc ▸ hk)
      rw [List.find?_cons]
      have : (lookupCell r key == lookupCell r2 key) = false := beq_false_of_ne hne
      rw [this]
      exact ih seen r2 h2
    · simp only [hk, if_false] at h2
      rcases List.mem_cons.mp h2 with h3 | h3
      · subst h3
        rw [List.find?_cons]
        have : (lookupCell r2 key == lookupCell r2 key) = true := beq_self_eq_true _
        rw [this]
      · have hr2 := dedupGo_key_not_seen key rs _ r2 h3
        have hne : lookupCell r key ≠ lookupCell r2 key := by
          intro hc
          exact hr2 (hc ▸ List.mem_cons_self _ _)
        rw [List.find?_cons]
        have : (lookupCell r key == lookupCell r2 key) = false := beq_false_of_ne hne
        rw [this]
        exact ih _ r2 h3

/-- Deduplication leaves a list untouched when its keys are already
pairwise distinct and disjoint from the seen set. -/
theorem dedupGo_id (key : String) :
    ∀ (l : List Row) (seen : List (Option Cell)),
      ((l.map (fun r => lookupCell r key)).Nodup) →
      (∀ r ∈ l, lookupCell r key ∉ seen) →
      dedupGo key seen l = l := by
  intro l
  induction l with
  | nil => intro seen _ _; simp [dedupGo]
  | cons r rs ih =>
    intro seen hnd hdisj
    rw [dedupGo]
    have hk : lookupCell r key ∉ seen := hdisj r (List.mem_cons_self _ _)
    simp only [hk, if_false]
    rw [List.map_cons, List.nodup_cons] at hnd
    congr 1
    apply ih _ hnd.2
    intro q hq hc
    rcases List.mem_cons.mp hc with h4 | h4
    · exact hnd.1 (h4 ▸ List.mem_map_of_mem _ hq)
    · exact hdisj q (List.mem_cons_of_mem _ hq) h4

/-- C8: the "unique objects" deduplication of `update_table` keeps
exactly the first-seen row for each `r:diaObjectId` value, preserving
the order of kept rows, and is idempotent. -/
theorem update_table_unique_objects_spec (data : List Row) :
    (update_table_unique_objects data).Sublist data ∧
    ((update_table_unique_objects data).map
        (fun r => lookupCell r "r:diaObjectId")).Nodup ∧
    (∀ r2 ∈ update_table_unique_objects data,
      data.find? (fun r =>
        lookupCell r "r:diaObjectId" == lookupCell r2 "r:diaObjectId") = some r2) ∧
    (∀ r ∈ data, ∃ q ∈ update_table_unique_objects data,
      lookupCell q "r:diaObjectId" = lookupCell r "r:diaObjectId") ∧
    update_table_unique_objects (update_table_unique_objects data) =
      update_table_unique_objects data := by
  refine ⟨dedupGo_sublist _ data [], dedupGo_keys_nodup _ data [],
    fun r2 h => dedupGo_find _ data [] r2 h,
    fun r h => dedupGo_covers _ data [] r h (by simp), ?_⟩
  exact dedupGo_id _ _ [] (dedupGo_keys_nodup _ data []) (by simp)

/-- Witness for C8 on a concrete three-row table with a duplicated
object id. -/
theorem update_table_unique_objects_spec_witness :
    [rowA, rowB, rowC].find? (fun r =>
      lookupCell r "r:diaObjectId" == lookupCell rowB "r:diaObjectId") = some rowB ∧
    update_table_unique_objects (update_table_unique_objects [rowA, rowB, rowC]) =
      update_table_unique_objects [rowA, rowB, rowC] :=
  ⟨(update_table_unique_objects_spec [rowA, rowB, rowC]).2.2.1 rowB (by decide),
   (update_table_unique_objects_spec [rowA, rowB, rowC]).2.2.2.2⟩

/-- C9 counterexample: the numeric value -1 is below the 2,400,000
threshold, yet the code interprets it as a Julian Date (the float
floor-division `-1 // 2400000` equals -1, which is truthy), not as a
Modified Julian Date as the claim states. -/
theorem isoify_time_negative_cex :
    isoify_interp (fun _ => false) (fun _ => (-1 : Rat)) "-1" =
      TimeInterp.jd (-1) ∧
    (-1 : Rat) < 2400000 ∧
    TimeInterp.jd (-1) ≠ TimeInterp.mjd (-1) := by
  refine ⟨?_, by norm_num, by simp⟩
  have hfl : ⌊(-1 : Rat) / 2400000⌋ = -1 := by
    rw [Int.floor_eq_iff]
    norm_num
  simp [isoify_interp, hfl]

/-- C9 (amended): an ISO string accepted by the `Time` constructor is
converted directly; a nonnegative numeric value below the 2,400,000
threshold is interpreted as a Modified Julian Date and a value at or
above the threshold as a Julian Date (negative numeric values fall
into the Julian-Date branch); the result is always the ISO rendering
of the chosen time. -/
theorem isoify_time_threshold (tryTime : String → Bool) (pyFloat : String → Rat)
    (iso : TimeInterp → String) (t : String) :
    (tryTime t = true →
      isoify_time tryTime pyFloat iso t = iso (TimeInterp.parsed t)) ∧
    (tryTime t = false → 0 ≤ pyFloat t → pyFloat t < 2400000 →
      isoify_interp tryTime pyFloat t = TimeInterp.mjd (pyFloat t)) ∧
    (tryTime t = false → 2400000 ≤ pyFloat t →
      isoify_interp tryTime pyFloat t = TimeInterp.jd (pyFloat t)) ∧
    isoify_time tryTime pyFloat iso t = iso (isoify_interp tryTime pyFloat t) := by
  refine ⟨?_, ?_, ?_, rfl⟩
  · intro ht
    simp [isoify_time, isoify_interp, ht]
  · intro ht h0 hlt
    have hfl : ⌊pyFloat t / 2400000⌋ = 0 := by
      rw [Int.floor_eq_zero_iff]
      constructor
      · positivity
      · rw [div_lt_one (by norm_num)]
        exact hlt
    simp [isoify_interp, ht, hfl]
  · intro ht hge
    have hfl : (1 : ℤ) ≤ ⌊pyFloat t / 2400000⌋ := by
      rw [Int.le_floor]
      rw [le_div_iff₀ (by norm_num : (0:Rat) < 2400000)]
      push_cast
      linarith
    have hne : ⌊pyFloat t / 2400000⌋ ≠ 0 := by omega
    simp [isoify_interp, ht, hne]

/-- Witness for C9 at concrete inputs: an ISO string goes through the
constructor, 60000 is taken as MJD, 2460000 as JD. -/
theorem isoify_time_threshold_witness :
    isoify_time tryTimeDemo floatTimeDemo isoOracleDemo "2023-11-07" =
      isoOracleDemo (TimeInterp.parsed "2023-11-07") ∧
    isoify_interp tryTimeDemo floatTimeDemo "60000" =
      TimeInterp.mjd (floatTimeDemo "60000") ∧
    isoify_interp tryTimeDemo floatTimeDemo "2460000" =
      TimeInterp.jd (floatTimeDemo "2460000") :=
  ⟨(isoify_time_threshold tryTimeDemo floatTimeDemo isoOracleDemo "2023-11-07").1
      (by decide),
   (isoify_time_threshold tryTimeDemo floatTimeDemo isoOracleDemo "60000").2.1
      (by decide) (by decide) (by decide),
   (isoify_time_threshold tryTimeDemo floatTimeDemo isoOracleDemo "2460000").2.2.1
      (by decide) (by decide)⟩

/-- C3 counterexample: a parsed query with action `"unknown"` that also
carries a `trend` parameter is answered with the trend warning, not
with the "Query not recognized" message the claim promises for every
unknown query. -/
theorem results_unknown_message_cex :
    (results apiEmpty floatDemo intDemo isoDemo
        { action := "unknown", object := "", params := [("trend", "rising")] }
        "trend=rising foo" none false).alert = Alert.trendWarning ∧
    Alert.trendWarning ≠ Alert.notRecognized := by
  exact ⟨rfl, by simp⟩

/-- C3 (amended): for every parsed query with action `"unknown"` the
callback issues no REST call and never records the query string (the
history store is either untouched or rewritten with its previous
value); the "Query not recognized" message is shown whenever the query
carries neither a `trend` nor a `last` parameter (those two cases get
the corresponding class-required warning instead). -/
theorem results_unknown_no_dispatch (api : String → Payload → List Row)
    (pyFloat : String → Rat) (pyInt : String → Int) (isoify : String → String)
    (query : Query) (value : String) (history : Option (List String))
    (show_table : Bool) (h : query.action = "unknown") :
    (results api pyFloat pyInt isoify query value history show_table).calls = [] ∧
    ((results api pyFloat pyInt isoify query value history show_table).histOut =
        HistOut.noUpdate ∨
      (results api pyFloat pyInt isoify query value history show_table).histOut =
        HistOut.store history) ∧
    (lookupParam query.params "trend" = none →
      lookupParam query.params "last" = none →
      (results api pyFloat pyInt isoify query value history show_table).alert =
        Alert.notRecognized) := by
  have h0 : ¬query.action = "" := by rw [h]; decide
  rcases htr : lookupParam query.params "trend" with _ | t
  · rcases hls : lookupParam query.params "last" with _ | s
    · have hres : results api pyFloat pyInt isoify query value history show_table =
          earlyOut Alert.notRecognized HistOut.noUpdate := by
        unfold results
        rw [if_neg h0, if_neg (by simp [htr]), if_neg (by simp [hls]), if_pos h]
      rw [hres]
      exact ⟨rfl, Or.inl rfl, fun _ _ => rfl⟩
    · have hres : results api pyFloat pyInt isoify query value history show_table =
          earlyOut Alert.lastWarning (HistOut.store history) := by
        unfold results
        rw [if_neg h0, if_neg (by simp [htr]), if_pos ⟨by simp [hls], h⟩]
      rw [hres]
      refine ⟨rfl, Or.inr rfl, fun _ hcon => ?_⟩
      simp at hcon
  · have hres : results api pyFloat pyInt isoify query value history show_table =
        earlyOut Alert.trendWarning (HistOut.store history) := by
      unfold results
      rw [if_neg h0, if_pos ⟨by rw [h]; decide, by simp [htr]⟩]
    rw [hres]
    refine ⟨rfl, Or.inr rfl, fun hcon _ => ?_⟩
    simp at hcon

/-- Witness for C3 at a concrete unknown query without trend/last. -/
theorem results_unknown_no_dispatch_witness :
    (results apiEmpty floatDemo intDemo isoDemo
        { action := "unknown", object := "zzz", params := [] }
        "zzz" (some ["a"]) false).calls = [] ∧
    ((results apiEmpty floatDemo intDemo isoDemo
        { action := "unknown", object := "zzz", params := [] }
        "zzz" (some ["a"]) false).histOut = HistOut.noUpdate ∨
      (results apiEmpty floatDemo intDemo isoDemo
        { action := "unknown", object := "zzz", params := [] }
        "zzz" (some ["a"]) false).histOut = HistOut.store (some ["a"])) ∧
    (results apiEmpty floatDemo intDemo isoDemo
        { action := "unknown", object := "zzz", params := [] }
        "zzz" (some ["a"]) false).alert = Alert.notRecognized := by
  have h := results_unknown_no_dispatch apiEmpty floatDemo intDemo isoDemo
    { action := "unknown", object := "zzz", params := [] }
    "zzz" (some ["a"]) false rfl
  exact ⟨h.1, h.2.1, h.2.2 rfl rfl⟩

/-- C5 counterexample: a query with a `last` parameter but a non-class
action is not always rejected — an `anomaly` query with `last=5` is
dispatched to the anomaly endpoint (the code only rejects `last` when
the action is `"unknown"`). -/
theorem results_last_without_class_cex :
    (results apiEmpty floatDemo intDemo isoDemo
        { action := "anomaly", object := "", params := [("last", "5")] }
        "anomaly last=5" none false).calls =
      [("/api/v1/anomaly", [("n", Cell.n 5)])] ∧
    (results apiEmpty floatDemo intDemo isoDemo
        { action := "anomaly", object := "", params := [("last", "5")] }
        "anomaly last=5" none false).alert ≠ Alert.lastWarning := by
  constructor
  · rfl
  · intro hc
    simp [results, dispatchCall, earlyOut, finishDispatch, lookupParam,
      anomalyPayload, timeEntry, apiEmpty] at hc

/-- C5 (amended): a query with a `trend` parameter and a non-class
action is rejected before dispatch with the trend warning, issuing no
REST call and keeping the previous history value; a `last` parameter
triggers the analogous rejection only when the action is `"unknown"`
(and no trend parameter intercepts first) — other non-class actions
are dispatched normally with `last` ignored or consumed. -/
theorem results_trend_last_validation (api : String → Payload → List Row)
    (pyFloat : String → Rat) (pyInt : String → Int) (isoify : String → String)
    (query : Query) (value : String) (history : Option (List String))
    (show_table : Bool) (h0 : ¬query.action = "") :
    (query.action ≠ "class" → (lookupParam query.params "trend").isSome →
      results api pyFloat pyInt isoify query value history show_table =
        earlyOut Alert.trendWarning (HistOut.store history)) ∧
    (query.action = "unknown" → (lookupParam query.params "last").isSome →
      lookupParam query.params "trend" = none →
      results api pyFloat pyInt isoify query value history show_table =
        earlyOut Alert.lastWarning (HistOut.store history)) := by
  constructor
  · intro hc ht
    unfold results
    rw [if_neg h0, if_pos ⟨hc, ht⟩]
  · intro hu hl htr
    unfold results
    rw [if_neg h0, if_neg (by simp [htr]), if_pos ⟨hl, hu⟩]

/-- Witness for C5 at concrete inputs: `trend=rising` with a conesearch
action is rejected with the trend warning, and `last=5` with an
unknown action is rejected with the last warning. -/
theorem results_trend_last_validation_witness :
    results apiEmpty floatDemo intDemo isoDemo
        { action := "conesearch", object := "", params := [("trend", "rising")] }
        "trend=rising" none false =
      earlyOut Alert.trendWarning (HistOut.store none) ∧
    results apiEmpty floatDemo intDemo isoDemo
        { action := "unknown", object := "", params := [("last", "5")] }
        "last=5" none false =
      earlyOut Alert.lastWarning (HistOut.store none) :=
  ⟨(results_trend_last_validation apiEmpty floatDemo intDemo isoDemo
      { action := "conesearch", object := "", params := [("trend", "rising")] }
      "trend=rising" none false (by decide)).1 (by decide) (by decide),
   (results_trend_last_validation apiEmpty floatDemo intDemo isoDemo
      { action := "unknown", object := "", params := [("last", "5")] }
      "last=5" none false (by decide)).2 rfl (by decide) (by decide)⟩

/-- The dispatch section on a conesearch query with resolvable
coordinates issues exactly the conesearch call. -/
theorem dispatchCall_conesearch (api : String → Payload → List Row)
    (pyFloat : String → Rat) (pyInt : String → Int) (isoify : String → String)
    (query : Query) (h : query.action = "conesearch") (ras decs : String)
    (hra : lookupParam query.params "ra" = some ras)
    (hdec : lookupParam query.params "dec" = some decs) :
    dispatchCall api pyFloat pyInt isoify query =
      some (Dispatched.call "/api/v1/conesearch"
        (conesearchPayload pyFloat isoify query.params ras decs) "r:diaObjectId"
        (api "/api/v1/conesearch"
          (conesearchPayload pyFloat isoify query.params ras decs))) := by
  unfold dispatchCall
  rw [h]
  rw [if_neg (by decide), if_neg (by decide), if_neg (by decide), if_pos rfl]
  rw [hra, hdec]

/-- Whatever the response, the first REST call recorded by the common
result handling is the dispatched one. -/
theorem finishDispatch_calls_head (show_table : Bool) (action value : String)
    (history : Option (List String)) (endpoint : String) (payload : Payload)
    (main_id : String) (pdf : List Row) :
    (finishDispatch show_table action value history endpoint payload
        main_id pdf).calls.head? = some (endpoint, payload) := by
  unfold finishDispatch
  split
  · rfl
  · rfl

/-- The radius entry of the conesearch payload: the clamped value of
the `r` parameter, or the clamped default 10. -/
theorem conesearchPayload_radius (pyFloat : String → Rat)
    (isoify : String → String) (ps : List (String × String)) (ras decs : String) :
    lookupCell (conesearchPayload pyFloat isoify ps ras decs) "radius" =
      some (Cell.n (min (match lookupParam ps "r" with
        | some s => pyFloat s
        | none => (10 : Rat)) 18000)) := by
  unfold conesearchPayload
  simp [lookupCell]

/-- C4: every dispatched conesearch query sends to `/api/v1/conesearch`
a radius equal to `min(params.r, 18000)` arcseconds when `r` is given
and 10 arcseconds when it is absent. -/
theorem results_conesearch_radius (api : String → Payload → List Row)
    (pyFloat : String → Rat) (pyInt : String → Int) (isoify : String → String)
    (query : Query) (value : String) (history : Option (List String))
    (show_table : Bool) (h : query.action = "conesearch")
    (htr : lookupParam query.params "trend" = none) (ras decs : String)
    (hra : lookupParam query.params "ra" = some ras)
    (hdec : lookupParam query.params "dec" = some decs) :
    ∃ p, (results api pyFloat pyInt isoify query value history
        show_table).calls.head? = some ("/api/v1/conesearch", p) ∧
      (∀ s, lookupParam query.params "r" = some s →
        lookupCell p "radius" = some (Cell.n (min (pyFloat s) 18000))) ∧
      (lookupParam query.params "r" = none →
        lookupCell p "radius" = some (Cell.n 10)) := by
  have h0 : ¬query.action = "" := by rw [h]; decide
  have hres : results api pyFloat pyInt isoify query value history show_table =
      finishDispatch show_table query.action value history "/api/v1/conesearch"
        (conesearchPayload pyFloat isoify query.params ras decs) "r:diaObjectId"
        (api "/api/v1/conesearch"
          (conesearchPayload pyFloat isoify query.params ras decs)) := by
    unfold results
    rw [if_neg h0, if_neg (by simp [htr]), if_neg (by rw [h]; simp),
      if_neg (by rw [h]; decide),
      dispatchCall_conesearch api pyFloat pyInt isoify query h ras decs hra hdec]
  refine ⟨conesearchPayload pyFloat isoify query.params ras decs, ?_, ?_, ?_⟩
  · rw [hres]
    exact finishDispatch_calls_head _ _ _ _ _ _ _ _
  · intro s hs
    rw [conesearchPayload_radius, hs]
  · intro hn
    rw [conesearchPayload_radius, hn]
    norm_num

/-- Witness for C4 at concrete inputs: a requested radius of 100000
arcsec is capped to 18000 before dispatch, and omitting the radius
dispatches the default of 10 arcsec. -/
theorem results_conesearch_radius_witness :
    (∃ p, (results apiEmpty floatDemo intDemo isoDemo
        { action := "conesearch", object := "",
          params := [("ra", "10"), ("dec", "20"), ("r", "100000")] }
        "10 20 r=100000" none false).calls.head? =
          some ("/api/v1/conesearch", p) ∧
      lookupCell p "radius" = some (Cell.n 18000)) ∧
    (∃ p, (results apiEmpty floatDemo intDemo isoDemo
        { action := "conesearch", object := "",
          params := [("ra", "10"), ("dec", "20")] }
        "10 20" none false).calls.head? = some ("/api/v1/conesearch", p) ∧
      lookupCell p "radius" = some (Cell.n 10)) := by
  constructor
  · obtain ⟨p, hp, hsome, _⟩ := results_conesearch_radius apiEmpty floatDemo
      intDemo isoDemo
      { action := "conesearch", object := "",
        params := [("ra", "10"), ("dec", "20"), ("r", "100000")] }
      "10 20 r=100000" none false rfl (by decide) "10" "20" (by decide) (by decide)
    refine ⟨p, hp, ?_⟩
    rw [hsome "100000" (by decide)]
    decide
  · obtain ⟨p, hp, _, hnone⟩ := results_conesearch_radius apiEmpty floatDemo
      intDemo isoDemo
      { action := "conesearch", object := "", params := [("ra", "10"), ("dec", "20")] }
      "10 20" none false rfl (by decide) "10" "20" (by decide) (by decide)
    exact ⟨p, hp, hnone (by decide)⟩

/-- The dispatch section on a class query issues exactly the latests
call. -/
theorem dispatchCall_class (api : String → Payload → List Row)
    (pyFloat : String → Rat) (pyInt : String → Int) (isoify : String → String)
    (query : Query) (h : query.action = "class") :
    dispatchCall api pyFloat pyInt isoify query =
      some (Dispatched.call "/api/v1/latests"
        (classPayload pyInt isoify query.params) "r:diaObjectId"
        (api "/api/v1/latests" (classPayload pyInt isoify query.params))) := by
  unfold dispatchCall
  rw [h]
  rw [if_neg (by decide), if_neg (by decide), if_neg (by decide),
    if_neg (by decide), if_pos rfl]

/-- The class and `n` entries of the latests payload. -/
theorem classPayload_entries (pyInt : String → Int) (isoify : String → String)
    (ps : List (String × String)) :
    lookupCell (classPayload pyInt isoify ps) "class" =
      some (match lookupParam ps "class" with
        | some c => Cell.s c
        | none => Cell.null) ∧
    lookupCell (classPayload pyInt isoify ps) "n" =
      some (Cell.n ((match lookupParam ps "last" with
        | some s => pyInt s
        | none => (100 : Int)) : Rat)) := by
  unfold classPayload
  constructor
  · simp [lookupCell]
  · cases hls : lookupParam ps "last" <;> simp [lookupCell, hls]

/-- C6: every query with action `"class"` sends to `/api/v1/latests` a
payload whose `class` entry is `params.class` and whose `n` entry comes
from `params.last`, defaulting to 100 when `last` is absent. -/
theorem results_class_payload (api : String → Payload → List Row)
    (pyFloat : String → Rat) (pyInt : String → Int) (isoify : String → String)
    (query : Query) (value : String) (history : Option (List String))
    (show_table : Bool) (h : query.action = "class") (cls : String)
    (hcls : lookupParam query.params "class" = some cls) :
    ∃ p, (results api pyFloat pyInt isoify query value history
        show_table).calls.head? = some ("/api/v1/latests", p) ∧
      lookupCell p "class" = some (Cell.s cls) ∧
      (∀ s, lookupParam query.params "last" = some s →
        lookupCell p "n" = some (Cell.n ((pyInt s : Int) : Rat))) ∧
      (lookupParam query.params "last" = none →
        lookupCell p "n" = some (Cell.n 100)) := by
  have h0 : ¬query.action = "" := by rw [h]; decide
  have hres : results api pyFloat pyInt isoify query value history show_table =
      finishDispatch show_table query.action value history "/api/v1/latests"
        (classPayload pyInt isoify query.params) "r:diaObjectId"
        (api "/api/v1/latests" (classPayload pyInt isoify query.params)) := by
    unfold results
    rw [if_neg (by rw [h]; decide), if_neg (by rw [h]; simp),
      if_neg (by rw [h]; simp), if_neg (by rw [h]; decide),
      dispatchCall_class api pyFloat pyInt isoify query h]
  refine ⟨classPayload pyInt isoify query.params, ?_, ?_, ?_, ?_⟩
  · rw [hres]
    exact finishDispatch_calls_head _ _ _ _ _ _ _ _
  · rw [(classPayload_entries pyInt isoify query.params).1, hcls]
  · intro s hs
    rw [(classPayload_entries pyInt isoify query.params).2, hs]
  · intro hn
    rw [(classPayload_entries pyInt isoify query.params).2, hn]
    norm_num

/-- Witness for C6 at the concrete scenario
`class="Early SN Ia candidate" last=10`: the dispatched payload is
exactly `[class: "Early SN Ia candidate", n: 10]`. -/
theorem results_class_payload_witness :
    (results apiEmpty floatDemo intDemo isoDemo
        { action := "class", object := "",
          params := [("class", "Early SN Ia candidate"), ("last", "10")] }
        "class search" none false).calls =
      [("/api/v1/latests",
        [("class", Cell.s "Early SN Ia candidate"), ("n", Cell.n 10)])] ∧
    ∃ p, (results apiEmpty floatDemo intDemo isoDemo
        { action := "class", object := "",
          params := [("class", "Early SN Ia candidate"), ("last", "10")] }
        "class search" none false).calls.head? = some ("/api/v1/latests", p) ∧
      lookupCell p "class" = some (Cell.s "Early SN Ia candidate") ∧
      lookupCell p "n" = some (Cell.n ((intDemo "10" : Int) : Rat)) := by
  refine ⟨by decide, ?_⟩
  obtain ⟨p, hp, hc, hn, _⟩ := results_class_payload apiEmpty floatDemo intDemo
    isoDemo
    { action := "class", object := "",
      params := [("class", "Early SN Ia candidate"), ("last", "10")] }
    "class search" none false rfl "Early SN Ia candidate" (by decide)
  exact ⟨p, hp, hc, hn "10" (by decide)⟩

/-- Sorting a table is a permutation of it. -/
theorem sort_values_perm (key : String) (asc : Bool) (rows : List Row) :
    (sort_values key asc rows).Perm rows := by
  unfold sort_values
  split
  · exact List.perm_insertionSort _ _
  · exact List.perm_insertionSort _ _

/-- Ascending sort leaves the numeric key pairwise nondecreasing. -/
theorem sort_values_sorted_asc (key : String) (rows : List Row) :
    (sort_values key true rows).Pairwise
      (fun a b => getRat a key ≤ getRat b key) := by
  haveI : IsTotal Row (fun a b => getRat a key ≤ getRat b key) :=
    ⟨fun a b => le_total _ _⟩
  haveI : IsTrans Row (fun a b => getRat a key ≤ getRat b key) :=
    ⟨fun _ _ _ hab hbc => le_trans hab hbc⟩
  have hs := List.sorted_insertionSort
    (fun a b : Row => getRat a key ≤ getRat b key) rows
  simpa [sort_values, List.Sorted] using hs

/-- Descending sort leaves the numeric key pairwise nonincreasing. -/
theorem sort_values_sorted_desc (key : String) (rows : List Row) :
    (sort_values key false rows).Pairwise
      (fun a b => getRat b key ≤ getRat a key) := by
  haveI : IsTotal Row (fun a b => getRat b key ≤ getRat a key) :=
    ⟨fun a b => (le_total _ _).symm⟩
  haveI : IsTrans Row (fun a b => getRat b key ≤ getRat a key) :=
    ⟨fun _ _ _ hab hbc => le_trans hbc hab⟩
  have hs := List.sorted_insertionSort
    (fun a b : Row => getRat b key ≤ getRat a key) rows
  simpa [sort_values, List.Sorted] using hs

/-- When the result handling produced a sorted table, it is a
permutation of the markdownified response, sorted ascending by
separation for conesearch and descending by observation time
otherwise. -/
theorem finishDispatch_sorted (show_table : Bool) (action value : String)
    (history : Option (List String)) (endpoint : String) (payload : Payload)
    (main_id : String) (pdf : List Row) (l : List Row)
    (h : (finishDispatch show_table action value history endpoint payload
        main_id pdf).sortedData = some l) :
    l.Perm (markdownify_col main_id pdf) ∧
    (action = "conesearch" →
      l.Pairwise (fun a b =>
        getRat a "v:separation_degree" ≤ getRat b "v:separation_degree")) ∧
    (action ≠ "conesearch" →
      l.Pairwise (fun a b =>
        getRat b "r:midpointMjdTai" ≤ getRat a "r:midpointMjdTai")) := by
  unfold finishDispatch at h
  by_cases he : pdf.isEmpty = true
  · simp [he] at h
  · rw [if_neg he] at h
    simp only [Option.some.injEq] at h
    by_cases ha : action = "conesearch"
    · rw [if_pos ha] at h
      refine ⟨?_, fun _ => ?_, fun hn => absurd ha hn⟩
      · rw [← h]
        exact sort_values_perm _ _ _
      · rw [← h]
        exact sort_values_sorted_asc _ _
    · rw [if_neg ha] at h
      refine ⟨?_, fun hc => absurd hc ha, fun _ => ?_⟩
      · rw [← h]
        exact sort_values_perm _ _ _
      · rw [← h]
        exact sort_values_sorted_desc _ _

/-- When the result handling produced a sorted table, the held table is
the markdownified response. -/
theorem finishDispatch_table_of_sorted (show_table : Bool)
    (action value : String) (history : Option (List String))
    (endpoint : String) (payload : Payload) (main_id : String)
    (pdf : List Row) (l : List Row)
    (h : (finishDispatch show_table action value history endpoint payload
        main_id pdf).sortedData = some l) :
    (finishDispatch show_table action value history endpoint payload
        main_id pdf).table = markdownify_col main_id pdf := by
  unfold finishDispatch at h ⊢
  by_cases he : pdf.isEmpty = true
  · simp [he] at h
  · rw [if_neg he]

/-- Every outcome of the callback either carries no sorted table or is
the common result handling of some dispatched call. -/
theorem results_shape (api : String → Payload → List Row)
    (pyFloat : String → Rat) (pyInt : String → Int) (isoify : String → String)
    (query : Query) (value : String) (history : Option (List String))
    (show_table : Bool) :
    (results api pyFloat pyInt isoify query value history show_table).sortedData =
      none ∨
    ∃ endpoint payload main_id pdf,
      results api pyFloat pyInt isoify query value history show_table =
        finishDispatch show_table query.action value history endpoint payload
          main_id pdf := by
  unfold results
  split
  · exact Or.inl rfl
  · split
    · exact Or.inl rfl
    · split
      · exact Or.inl rfl
      · split
        · exact Or.inl rfl
        · split
          · exact Or.inl rfl
          · exact Or.inl rfl
          · exact Or.inr ⟨_, _, _, _, rfl⟩

/-- C7: whenever a dispatched query displays a non-empty result table,
the displayed rows are a permutation of the response sorted ascending
by `v:separation_degree` for conesearch queries and descending by
`r:midpointMjdTai` for every other action. -/
theorem results_sorted_by_action (api : String → Payload → List Row)
    (pyFloat : String → Rat) (pyInt : String → Int) (isoify : String → String)
    (query : Query) (value : String) (history : Option (List String))
    (show_table : Bool) (l : List Row)
    (h : (results api pyFloat pyInt isoify query value history
        show_table).sortedData = some l) :
    l.Perm (results api pyFloat pyInt isoify query value history
        show_table).table ∧
    (query.action = "conesearch" →
      l.Pairwise (fun a b =>
        getRat a "v:separation_degree" ≤ getRat b "v:separation_degree")) ∧
    (query.action ≠ "conesearch" →
      l.Pairwise (fun a b =>
        getRat b "r:midpointMjdTai" ≤ getRat a "r:midpointMjdTai")) := by
  rcases results_shape api pyFloat pyInt isoify query value history show_table
    with hn | ⟨ep, pl, mid, pdf, heq⟩
  · rw [hn] at h
    cases h
  · rw [heq] at h ⊢
    have h1 := finishDispatch_sorted show_table query.action value history
      ep pl mid pdf l h
    have h2 := finishDispatch_table_of_sorted show_table query.action value
      history ep pl mid pdf l h
    rw [h2]
    exact h1

/-- Witness for C7 on a concrete conesearch run over two rows arriving
out of order: the displayed table is sorted ascending by separation. -/
theorem results_sorted_by_action_witness :
    (results apiDemo floatDemo intDemo isoDemo
        { action := "conesearch", object := "",
          params := [("ra", "10"), ("dec", "20")] }
        "10 20" none false).sortedData = some sortedDemo ∧
    sortedDemo.Perm (results apiDemo floatDemo intDemo isoDemo
        { action := "conesearch", object := "",
          params := [("ra", "10"), ("dec", "20")] }
        "10 20" none false).table ∧
    sortedDemo.Pairwise (fun a b =>
      getRat a "v:separation_degree" ≤ getRat b "v:separation_degree") := by
  have h1 : (results apiDemo floatDemo intDemo isoDemo
      { action := "conesearch", object := "",
        params := [("ra", "10"), ("dec", "20")] }
      "10 20" none false).sortedData = some sortedDemo := by decide
  have h2 := results_sorted_by_action apiDemo floatDemo intDemo isoDemo
    { action := "conesearch", object := "",
      params := [("ra", "10"), ("dec", "20")] }
    "10 20" none false sortedDemo h1
  exact ⟨h1, h2.1, h2.2.1 rfl⟩
